import Mathlib

/-!
Verification of the alert-filtering pipeline of `bot.py` (whale-ibkr-bridge).

The embedding models the numeric values of the Python program as rationals,
timestamps as rational day counts since an epoch, and calendar dates as
integer day numbers obtained from the standard civil-calendar conversion.
A raw alert is the fixed-schema record the filter reads from each JSON
object; a field that is present but non-numeric (so that `float(...)` would
raise) is modelled by `NumField.bad`, a missing optional field by
`NumField.absent`, and a parsed numeric value by `NumField.num`.  An
expiration that `datetime.strptime(..., "%Y-%m-%d")` fails to parse is
modelled by `none`.  The two annotation fields that `filter_alerts` writes
into a qualifying record are carried as `Option` fields that start out
`none` on freshly fetched records.
-/

/-- Numeric-or-not content of one dictionary field, as seen by `float(...)`. -/
inductive NumField where
  | absent : NumField
  | num : ℚ → NumField
  | bad : NumField
deriving DecidableEq

/-- One alert record (the fixed schema the filter and simulator read). -/
structure RawAlert where
  ticker : String
  side : String
  strike : ℚ
  expiration : Option ℤ
  average_price : NumField
  premium : NumField
  volume : NumField
  open_interest : NumField
  days_to_expiry : Option ℤ := none
  volume_ratio : Option ℚ := none
deriving DecidableEq

/-- Coercion `float(alert["f"])` for a required field: fails when missing or non-numeric. -/
def numValue : NumField → Option ℚ
  | NumField.num q => some q
  | _ => none

/-- Coercion `float(alert.get("f", d))` for an optional field with default `d`. -/
def numValueD (d : ℚ) : NumField → Option ℚ
  | NumField.absent => some d
  | NumField.num q => some q
  | NumField.bad => none

/-- Filter thresholds, from the module constants of `bot.py`. -/
def MIN_DAYS_TO_EXPIRY : ℤ := 30

def MIN_AVERAGE_PRICE : ℚ := 5

def MIN_PREMIUM : ℚ := 100000

def VOLUME_MULTIPLIER : ℚ := 1.5

/-- Values computed inside the `try` block for one alert. -/
structure Parsed where
  dte : ℤ
  avg_price : ℚ
  premium : ℚ
  volume : ℚ
  open_interest : ℚ
  vol_ratio : ℚ
deriving DecidableEq

/-- The parsing phase of one loop iteration of `filter_alerts`: expiration is
parsed, `days_to_expiry = (expiry - now).days` (a floor of the day
difference), the four numeric fields are coerced (volume defaulting to 0,
open interest to 1), and the volume ratio is `volume / open_interest` when
the open interest is positive, else 0.  `none` models the `except` path. -/
def parseAlert (now : ℚ) (a : RawAlert) : Option Parsed := do
  let e ← a.expiration
  let avg ← numValue a.average_price
  let prem ← numValue a.premium
  let vol ← numValueD 0 a.volume
  let oi ← numValueD 1 a.open_interest
  pure { dte := Rat.floor ((e : ℚ) - now)
         avg_price := avg
         premium := prem
         volume := vol
         open_interest := oi
         vol_ratio := if 0 < oi then vol / oi else 0 }

/-- Round-half-to-even to an integer, as Python `round` does. -/
def roundHalfToEven (q : ℚ) : ℤ :=
  if q - Rat.floor q < 1/2 then Rat.floor q
  else if 1/2 < q - Rat.floor q then Rat.floor q + 1
  else if Rat.floor q % 2 = 0 then Rat.floor q else Rat.floor q + 1

/-- Python `round(x, 2)`. -/
def round2 (q : ℚ) : ℚ := (roundHalfToEven (100 * q) : ℚ) / 100

/-- One loop iteration of `filter_alerts`: parse, test the four thresholds,
and on success return the same record with the two annotation fields set. -/
def processAlert (now : ℚ) (a : RawAlert) : Option RawAlert :=
  match parseAlert now a with
  | none => none
  | some p =>
      if MIN_DAYS_TO_EXPIRY ≤ p.dte ∧ MIN_AVERAGE_PRICE ≤ p.avg_price ∧
          MIN_PREMIUM ≤ p.premium ∧ VOLUME_MULTIPLIER ≤ p.vol_ratio then
        some { a with days_to_expiry := some p.dte
                      volume_ratio := some (round2 p.vol_ratio) }
      else none

/-- The function `filter_alerts`: the loop keeps, in input order, the annotated versions
of the alerts that parse and pass all four thresholds. -/
def filter_alerts (now : ℚ) (alerts : List RawAlert) : List RawAlert :=
  alerts.filterMap (processAlert now)

/-- The effect of one loop iteration on the input record itself: a
qualifying record is mutated in place into its annotated version, any other
record is left unchanged. -/
def mutateAlert (now : ℚ) (a : RawAlert) : RawAlert :=
  match processAlert now a with
  | some b => b
  | none => a

/-- Day number of a civil date (the standard days-from-civil conversion),
used to give the sample data's ISO date strings their parsed values. -/
def daysFromCivil (y m d : ℤ) : ℤ :=
  let y2 := if m ≤ 2 then y - 1 else y
  let era := (if 0 ≤ y2 then y2 else y2 - 399) / 400
  let yoe := y2 - era * 400
  let mp := if 2 < m then m - 3 else m + 9
  let doy := (153 * mp + 2) / 5 + d - 1
  let doe := yoe * 365 + yoe / 4 - yoe / 100 + doy
  era * 146097 + doe - 719468

/-- First record of the hardcoded fallback dataset. -/
def tslaAlert : RawAlert :=
  { ticker := "TSLA", side := "CALL", strike := 250,
    expiration := some (daysFromCivil 2025 12 20),
    average_price := NumField.num 5.12, premium := NumField.num 210000,
    volume := NumField.num 500, open_interest := NumField.num 200 }

/-- Second record of the hardcoded fallback dataset. -/
def nvdaAlert : RawAlert :=
  { ticker := "NVDA", side := "PUT", strike := 400,
    expiration := some (daysFromCivil 2025 11 15),
    average_price := NumField.num 4.8, premium := NumField.num 150000,
    volume := NumField.num 300, open_interest := NumField.num 150 }

/-- Third record of the hardcoded fallback dataset. -/
def aaplAlert : RawAlert :=
  { ticker := "AAPL", side := "CALL", strike := 200,
    expiration := some (daysFromCivil 2025 10 25),
    average_price := NumField.num 2.1, premium := NumField.num 50000,
    volume := NumField.num 100, open_interest := NumField.num 200 }

/-- The dummy test data returned on every fallback path of `fetch_alerts`. -/
def fallbackData : List RawAlert := [tslaAlert, nvdaAlert, aaplAlert]

/-- Shape of a decoded 200-response body as far as `fetch_alerts` inspects
it: a top-level list, a dict (whose `chains` key either holds a list or is
missing), or anything else. -/
inductive JsonData where
  | jlist (alerts : List RawAlert)
  | jdict (chains : Option (List RawAlert))
  | jother
deriving DecidableEq

/-- Outcome of the HTTP request: a raised transport/decoding error, or a
response with a status code and decoded body. -/
inductive FetchOutcome where
  | transportError
  | ok (status : ℕ) (data : JsonData)
deriving DecidableEq

/-- The function `fetch_alerts`: return the provider data only on a 200 whose body is a
list or a dict with a `chains` key; every other outcome falls back to the
hardcoded dummy data. -/
def fetch_alerts : FetchOutcome → List RawAlert
  | FetchOutcome.transportError => fallbackData
  | FetchOutcome.ok status data =>
      if status = 200 then
        match data with
        | JsonData.jlist l => l
        | JsonData.jdict (some l) => l
        | JsonData.jdict none => fallbackData
        | JsonData.jother => fallbackData
      else fallbackData

/-- The function `simulate_trade_execution` in dry-run mode, with the two uniform draws
passed in explicitly: the simulated entry price and the rounded PnL. -/
def simulate_trade_execution (avg u1 u2 : ℚ) : ℚ × ℚ :=
  let simulated_price := avg * u1
  (simulated_price, round2 (u2 * simulated_price))

/-- A record the filter's `except` clause drops: unparseable expiration or a
non-numeric value in one of the four numeric fields. -/
def RecordMalformed (a : RawAlert) : Prop :=
  a.expiration = none ∨ a.average_price = NumField.bad ∨
    a.premium = NumField.bad ∨ a.volume = NumField.bad ∨
    a.open_interest = NumField.bad

/-- The timestamp 2025-09-01, used as a concrete scan time for witnesses:
it puts all three fallback expirations at least 30 days out. -/
def now0 : ℚ := (daysFromCivil 2025 9 1 : ℚ)

/-- The TSLA fallback record as `filter_alerts` annotates it at `now0`. -/
def tslaQualified : RawAlert :=
  { tslaAlert with days_to_expiry := some 110, volume_ratio := some (5/2) }

/-- A syntactically well-formed record whose open interest is the number 0
while its volume is huge and every other rule passes by a wide margin. -/
def oiZeroAlert : RawAlert :=
  { ticker := "SPY", side := "CALL", strike := 500,
    expiration := some (daysFromCivil 2026 6 19),
    average_price := NumField.num 10, premium := NumField.num 500000,
    volume := NumField.num 10000, open_interest := NumField.num 0 }

/-- A record whose premium field is non-numeric, with every other field
well formed and passing every rule. -/
def badPremiumAlert : RawAlert :=
  { ticker := "MSFT", side := "CALL", strike := 430,
    expiration := some (daysFromCivil 2026 6 19),
    average_price := NumField.num 10, premium := NumField.bad,
    volume := NumField.num 10000, open_interest := NumField.num 100 }

theorem ratFloor_eq_intFloor (q : ℚ) : (Rat.floor q : ℤ) = ⌊q⌋ := by
  rw [Rat.floor_def', Rat.floor_def]

theorem ratFloor_le (q : ℚ) : ((Rat.floor q : ℤ) : ℚ) ≤ q := by
  rw [ratFloor_eq_intFloor]; exact Int.floor_le q

theorem lt_ratFloor_add_one (q : ℚ) : q < ((Rat.floor q : ℤ) : ℚ) + 1 := by
  rw [ratFloor_eq_intFloor]; exact Int.lt_floor_add_one q

theorem roundHalfToEven_near (q : ℚ) : |(roundHalfToEven q : ℚ) - q| ≤ 1/2 := by
  have h1 := ratFloor_le q
  have h2 := lt_ratFloor_add_one q
  unfold roundHalfToEven
  split_ifs with ha hb hc
  · rw [abs_le]; constructor <;> linarith
  · push_cast; rw [abs_le]; constructor <;> linarith
  · rw [abs_le]; constructor <;> linarith
  · push_cast; rw [abs_le]; constructor <;> linarith

theorem round2_near (q : ℚ) : |round2 q - q| ≤ 1/200 := by
  have h := roundHalfToEven_near (100 * q)
  rw [abs_le] at h
  unfold round2
  rw [abs_le]
  constructor <;> [linarith; linarith]

theorem parseAlert_set_annot (now : ℚ) (a : RawAlert) (x : Option ℤ) (y : Option ℚ) :
    parseAlert now { a with days_to_expiry := x, volume_ratio := y } = parseAlert now a := rfl

theorem processAlert_some_spec {now : ℚ} {a b : RawAlert}
    (h : processAlert now a = some b) :
    ∃ p : Parsed, parseAlert now a = some p ∧
      MIN_DAYS_TO_EXPIRY ≤ p.dte ∧ MIN_AVERAGE_PRICE ≤ p.avg_price ∧
      MIN_PREMIUM ≤ p.premium ∧ VOLUME_MULTIPLIER ≤ p.vol_ratio ∧
      b = { a with days_to_expiry := some p.dte,
                   volume_ratio := some (round2 p.vol_ratio) } := by
  unfold processAlert at h
  cases hp : parseAlert now a with
  | none => rw [hp] at h; exact absurd h (by simp)
  | some p =>
    rw [hp] at h
    dsimp only at h
    split_ifs at h with hc
    exact ⟨p, rfl, hc.1, hc.2.1, hc.2.2.1, hc.2.2.2, (Option.some_inj.mp h).symm⟩

theorem processAlert_some_self {now : ℚ} {a b : RawAlert}
    (h : processAlert now a = some b) : processAlert now b = some b := by
  obtain ⟨p, hp, h1, h2, h3, h4, rfl⟩ := processAlert_some_spec h
  unfold processAlert
  rw [parseAlert_set_annot, hp]
  dsimp only
  rw [if_pos ⟨h1, h2, h3, h4⟩]

theorem processAlert_mutateAlert (now : ℚ) (a : RawAlert) :
    processAlert now (mutateAlert now a) = processAlert now a := by
  unfold mutateAlert
  cases h : processAlert now a with
  | none => exact h
  | some b => exact processAlert_some_self h

theorem filterMap_sublist_map {α β : Type} (f : α → Option β) (g : α → β)
    (hfg : ∀ a b, f a = some b → g a = b) :
    ∀ l : List α, List.Sublist (l.filterMap f) (l.map g)
  | [] => List.Sublist.slnil
  | a :: l => by
    rw [List.map_cons]
    cases hfa : f a with
    | none =>
      rw [List.filterMap_cons_none hfa]
      exact (filterMap_sublist_map f g hfg l).cons _
    | some b =>
      rw [List.filterMap_cons_some hfa, hfg a b hfa]
      exact (filterMap_sublist_map f g hfg l).cons₂ _

theorem filterMap_skip {α β : Type} (f : α → Option β) (l1 l2 : List α) (a : α)
    (h : f a = none) : (l1 ++ a :: l2).filterMap f = (l1 ++ l2).filterMap f := by
  rw [List.filterMap_append, List.filterMap_append, List.filterMap_cons_none h]

theorem filterMap_self_of_mem {α : Type} (f : α → Option α) :
    ∀ l : List α, (∀ b ∈ l, f b = some b) → l.filterMap f = l
  | [], _ => rfl
  | a :: l, h => by
    rw [List.filterMap_cons_some (h a (List.mem_cons_self a l)),
      filterMap_self_of_mem f l fun b hb => h b (List.mem_cons_of_mem a hb)]

theorem parseAlert_some_elim {now : ℚ} {a : RawAlert} {p : Parsed}
    (hp : parseAlert now a = some p) :
    ∃ e av pr vol oi, a.expiration = some e ∧
      numValue a.average_price = some av ∧ numValue a.premium = some pr ∧
      numValueD 0 a.volume = some vol ∧ numValueD 1 a.open_interest = some oi ∧
      p = { dte := Rat.floor ((e : ℚ) - now), avg_price := av, premium := pr,
            volume := vol, open_interest := oi,
            vol_ratio := if 0 < oi then vol / oi else 0 } := by
  unfold parseAlert at hp
  simp only [Option.bind_eq_bind, Option.bind_eq_some, Option.pure_def,
    Option.some_inj] at hp
  obtain ⟨e, he, av, hav, pr, hpr, vol, hvol, oi, hoi, hpure⟩ := hp
  exact ⟨e, av, pr, vol, oi, he, hav, hpr, hvol, hoi, hpure.symm⟩

theorem parseAlert_malformed {now : ℚ} {a : RawAlert} (hm : RecordMalformed a) :
    parseAlert now a = none := by
  cases hp : parseAlert now a with
  | none => rfl
  | some p =>
    exfalso
    obtain ⟨e, av, pr, vol, oi, he, hav, hpr, hvol, hoi, -⟩ := parseAlert_some_elim hp
    rcases hm with h | h | h | h | h
    · rw [h] at he; exact Option.noConfusion he
    · rw [h] at hav; simp [numValue] at hav
    · rw [h] at hpr; simp [numValue] at hpr
    · rw [h] at hvol; simp [numValueD] at hvol
    · rw [h] at hoi; simp [numValueD] at hoi

theorem parseAlert_oi_ratio {now : ℚ} {a : RawAlert} {q : ℚ}
    (hoi : a.open_interest = NumField.num q) (hq : q ≤ 0) :
    ∀ p, parseAlert now a = some p → p.vol_ratio = 0 := by
  intro p hp
  obtain ⟨e, av, pr, vol, oi, he, hav, hpr, hvol, hoi2, hpeq⟩ := parseAlert_some_elim hp
  rw [hoi] at hoi2
  have hoiq : oi = q := by
    simp only [numValueD] at hoi2
    exact (Option.some_inj.mp hoi2).symm
  subst hoiq
  rw [hpeq]
  show (if 0 < oi then vol / oi else 0) = 0
  exact if_neg (not_lt.mpr hq)

theorem processAlert_oi_nonpos {now : ℚ} {a : RawAlert} {q : ℚ}
    (hoi : a.open_interest = NumField.num q) (hq : q ≤ 0) :
    processAlert now a = none := by
  unfold processAlert
  cases hp : parseAlert now a with
  | none => rfl
  | some p =>
    dsimp only
    split_ifs with hc
    · exfalso
      have h0 := parseAlert_oi_ratio hoi hq p hp
      rw [h0] at hc
      norm_num [VOLUME_MULTIPLIER] at hc
    · rfl

theorem processAlert_malformed {now : ℚ} {a : RawAlert} (hm : RecordMalformed a) :
    processAlert now a = none := by
  unfold processAlert
  rw [parseAlert_malformed hm]

theorem mutateAlert_of_none {now : ℚ} {a : RawAlert}
    (h : processAlert now a = none) : mutateAlert now a = a := by
  unfold mutateAlert
  rw [h]

/-- Claim C1: for every input sequence and fixed scan time, the filter
result is an order-preserving subsequence of the input records (as the
in-place loop leaves them), so its length is at most the input length, and
every output element passes all four eligibility thresholds with its two
annotation fields equal to the values recomputed from its own inputs. -/
theorem filter_alerts_sound (now : ℚ) (alerts : List RawAlert) :
    (filter_alerts now alerts).length ≤ alerts.length ∧
    List.Sublist (filter_alerts now alerts) (alerts.map (mutateAlert now)) ∧
    ∀ b ∈ filter_alerts now alerts, ∃ p : Parsed,
      parseAlert now b = some p ∧
      MIN_DAYS_TO_EXPIRY ≤ p.dte ∧ MIN_AVERAGE_PRICE ≤ p.avg_price ∧
      MIN_PREMIUM ≤ p.premium ∧ VOLUME_MULTIPLIER ≤ p.vol_ratio ∧
      b.days_to_expiry = some p.dte ∧
      b.volume_ratio = some (round2 p.vol_ratio) := by
  have hmut : ∀ a b, processAlert now a = some b → mutateAlert now a = b := by
    intro a b h
    unfold mutateAlert
    rw [h]
  refine ⟨?_, ?_, ?_⟩
  · exact List.length_filterMap_le (processAlert now) alerts
  · exact filterMap_sublist_map (processAlert now) (mutateAlert now) hmut alerts
  · intro b hb
    obtain ⟨a, _, ha⟩ := List.mem_filterMap.mp hb
    obtain ⟨p, hp, h1, h2, h3, h4, rfl⟩ := processAlert_some_spec ha
    exact ⟨p, by rw [parseAlert_set_annot]; exact hp, h1, h2, h3, h4, rfl, rfl⟩

unseal Rat.mul Rat.inv Rat.ofScientific Rat.add Rat.sub in
/-- Claim C1 witness: at scan time 2025-09-01 the fallback batch yields an
output no longer than the input, and its TSLA element passes all four
thresholds with annotations matching recomputation. -/
theorem filter_alerts_sound_witness :
    (filter_alerts now0 fallbackData).length ≤ fallbackData.length ∧
    ∃ p : Parsed, parseAlert now0 tslaQualified = some p ∧
      MIN_DAYS_TO_EXPIRY ≤ p.dte ∧ MIN_AVERAGE_PRICE ≤ p.avg_price ∧
      MIN_PREMIUM ≤ p.premium ∧ VOLUME_MULTIPLIER ≤ p.vol_ratio ∧
      tslaQualified.days_to_expiry = some p.dte ∧
      tslaQualified.volume_ratio = some (round2 p.vol_ratio) :=
  ⟨(filter_alerts_sound now0 fallbackData).1,
    (filter_alerts_sound now0 fallbackData).2.2 tslaQualified (by decide)⟩

/-- Claim C2: an alert whose open interest field is the number 0 or a
negative number gets volume ratio 0 from the filter, is rejected, and never
appears in the output wherever it sits in the batch, regardless of its
volume or any other field. -/
theorem open_interest_nonpos_excluded (now : ℚ) (a : RawAlert) (q : ℚ)
    (hoi : a.open_interest = NumField.num q) (hq : q ≤ 0) :
    (∀ p, parseAlert now a = some p → p.vol_ratio = 0) ∧
    processAlert now a = none ∧
    ∀ l1 l2, filter_alerts now (l1 ++ a :: l2) = filter_alerts now (l1 ++ l2) := by
  refine ⟨parseAlert_oi_ratio hoi hq, processAlert_oi_nonpos hoi hq, ?_⟩
  intro l1 l2
  exact filterMap_skip (processAlert now) l1 l2 a (processAlert_oi_nonpos hoi hq)

unseal Rat.mul Rat.inv Rat.ofScientific Rat.add Rat.sub in
/-- Claim C2 witness: a record with zero open interest and huge volume is
rejected and its removal from the middle of the fallback batch does not
change the output. -/
theorem open_interest_nonpos_excluded_witness :
    oiZeroAlert.open_interest = NumField.num 0 ∧ (0 : ℚ) ≤ 0 ∧
    processAlert now0 oiZeroAlert = none ∧
    filter_alerts now0 ([tslaAlert] ++ oiZeroAlert :: [nvdaAlert]) =
      filter_alerts now0 ([tslaAlert] ++ [nvdaAlert]) :=
  ⟨rfl, le_refl 0,
    (open_interest_nonpos_excluded now0 oiZeroAlert 0 rfl (le_refl 0)).2.1,
    (open_interest_nonpos_excluded now0 oiZeroAlert 0 rfl (le_refl 0)).2.2
      [tslaAlert] [nvdaAlert]⟩

/-- Claim C3: a malformed record (unparseable expiration date or a
non-numeric numeric field) is dropped by the filter, and the batch that
contains it produces exactly the output of the batch with it removed. -/
theorem malformed_record_dropped (now : ℚ) (m : RawAlert)
    (hm : RecordMalformed m) :
    processAlert now m = none ∧
    ∀ l1 l2, filter_alerts now (l1 ++ m :: l2) = filter_alerts now (l1 ++ l2) := by
  refine ⟨processAlert_malformed hm, ?_⟩
  intro l1 l2
  exact filterMap_skip (processAlert now) l1 l2 m (processAlert_malformed hm)

unseal Rat.mul Rat.inv Rat.ofScientific Rat.add Rat.sub in
/-- Claim C3 witness: a record with a non-numeric premium is dropped from
the middle of the fallback batch without affecting its siblings. -/
theorem malformed_record_dropped_witness :
    RecordMalformed badPremiumAlert ∧
    processAlert now0 badPremiumAlert = none ∧
    filter_alerts now0 ([tslaAlert] ++ badPremiumAlert :: [nvdaAlert, aaplAlert]) =
      filter_alerts now0 ([tslaAlert] ++ [nvdaAlert, aaplAlert]) :=
  ⟨Or.inr (Or.inr (Or.inl rfl)),
    (malformed_record_dropped now0 badPremiumAlert
      (Or.inr (Or.inr (Or.inl rfl)))).1,
    (malformed_record_dropped now0 badPremiumAlert
      (Or.inr (Or.inr (Or.inl rfl)))).2 [tslaAlert] [nvdaAlert, aaplAlert]⟩

/-- Claim C4: the fetch step is total over all request outcomes and follows
the fail-open policy: a transport error, a non-200 status, a 200 dict body
without the chains key, or a 200 body of any other shape all yield the
hardcoded fallback dataset; a 200 list body is returned as-is and a 200
dict body with the chains key yields that field. -/
theorem fetch_alerts_spec :
    fetch_alerts FetchOutcome.transportError = fallbackData ∧
    (∀ status data, status ≠ 200 →
      fetch_alerts (FetchOutcome.ok status data) = fallbackData) ∧
    (∀ l, fetch_alerts (FetchOutcome.ok 200 (JsonData.jlist l)) = l) ∧
    (∀ l, fetch_alerts (FetchOutcome.ok 200 (JsonData.jdict (some l))) = l) ∧
    fetch_alerts (FetchOutcome.ok 200 (JsonData.jdict none)) = fallbackData ∧
    fetch_alerts (FetchOutcome.ok 200 JsonData.jother) = fallbackData := by
  refine ⟨rfl, ?_, fun l => rfl, fun l => rfl, rfl, rfl⟩
  intro status data h
  unfold fetch_alerts
  dsimp only
  rw [if_neg h]

/-- Claim C4 witness: a 503 response with a well-shaped list body still
falls back to the dummy dataset. -/
theorem fetch_alerts_spec_witness :
    (503 : ℕ) ≠ 200 ∧
    fetch_alerts (FetchOutcome.ok 503 (JsonData.jlist [])) = fallbackData :=
  ⟨by decide, fetch_alerts_spec.2.1 503 (JsonData.jlist []) (by decide)⟩

theorem filter_alerts_map_mutate (now : ℚ) (l : List RawAlert) :
    filter_alerts now (l.map (mutateAlert now)) = filter_alerts now l := by
  unfold filter_alerts
  rw [List.filterMap_map]
  congr 1
  funext a
  exact processAlert_mutateAlert now a

/-- Claim C6: filtering is pure for a fixed scan time: it is a function of
the input values alone, and re-running it after any number of previous
passes over the same records (each pass mutating qualifying records in
place) still returns the same output. -/
theorem filter_alerts_deterministic (now : ℚ) (l : List RawAlert) :
    (∀ l2, l = l2 → filter_alerts now l = filter_alerts now l2) ∧
    ∀ k : ℕ, filter_alerts now ((fun s => s.map (mutateAlert now))^[k] l) =
      filter_alerts now l := by
  constructor
  · intro l2 h
    rw [h]
  · intro k
    induction k with
    | zero => rfl
    | succ n ih =>
      rw [Function.iterate_succ_apply']
      exact (filter_alerts_map_mutate now _).trans ih

unseal Rat.mul Rat.inv Rat.ofScientific Rat.add Rat.sub in
/-- Claim C6 witness: two runs on the fallback batch at the same scan time
agree. -/
theorem filter_alerts_deterministic_witness :
    (fallbackData = fallbackData ∧
      filter_alerts now0 fallbackData = filter_alerts now0 fallbackData) ∧
    filter_alerts now0
        ((fun s => s.map (mutateAlert now0))^[2] fallbackData) =
      filter_alerts now0 fallbackData :=
  ⟨⟨rfl, (filter_alerts_deterministic now0 fallbackData).1 fallbackData rfl⟩,
    (filter_alerts_deterministic now0 fallbackData).2 2⟩

/-- Claim C10: the filter is idempotent for a fixed scan time: applied to
its own output it returns that output unchanged, because every emitted
record still parses, still passes all four thresholds, and is re-annotated
with the same two values. -/
theorem filter_alerts_idempotent (now : ℚ) (l : List RawAlert) :
    filter_alerts now (filter_alerts now l) = filter_alerts now l := by
  unfold filter_alerts
  refine filterMap_self_of_mem (processAlert now) (l.filterMap (processAlert now)) ?_
  intro b hb
  obtain ⟨a, _, ha⟩ := List.mem_filterMap.mp hb
  exact processAlert_some_self ha

/-- Claim C9: the filter annotates records in place: every output element
is an input record with exactly the fields days_to_expiry and volume_ratio
overwritten and every other field untouched, while a record the loop does
not append (non-qualifying or malformed) is left entirely unmodified. -/
theorem filter_alerts_frame (now : ℚ) (alerts : List RawAlert) :
    (∀ b ∈ filter_alerts now alerts, ∃ a, a ∈ alerts ∧ ∃ p : Parsed,
      parseAlert now a = some p ∧
      b = { a with days_to_expiry := some p.dte,
                   volume_ratio := some (round2 p.vol_ratio) } ∧
      b.ticker = a.ticker ∧ b.side = a.side ∧ b.strike = a.strike ∧
      b.expiration = a.expiration ∧ b.average_price = a.average_price ∧
      b.premium = a.premium ∧ b.volume = a.volume ∧
      b.open_interest = a.open_interest) ∧
    ∀ a, processAlert now a = none → mutateAlert now a = a := by
  constructor
  · intro b hb
    obtain ⟨a, hal, ha⟩ := List.mem_filterMap.mp hb
    obtain ⟨p, hp, _, _, _, _, rfl⟩ := processAlert_some_spec ha
    exact ⟨a, hal, p, hp, rfl, rfl, rfl, rfl, rfl, rfl, rfl, rfl, rfl⟩
  · intro a h
    exact mutateAlert_of_none h

unseal Rat.mul Rat.inv Rat.ofScientific Rat.add Rat.sub in
/-- Claim C9 witness: the annotated TSLA output record agrees with the
TSLA input record on all non-annotation fields, and the non-qualifying
NVDA record is left unmodified. -/
theorem filter_alerts_frame_witness :
    (∃ a, a ∈ fallbackData ∧ ∃ p : Parsed,
      parseAlert now0 a = some p ∧
      tslaQualified = { a with days_to_expiry := some p.dte,
                               volume_ratio := some (round2 p.vol_ratio) } ∧
      tslaQualified.ticker = a.ticker ∧ tslaQualified.side = a.side ∧
      tslaQualified.strike = a.strike ∧
      tslaQualified.expiration = a.expiration ∧
      tslaQualified.average_price = a.average_price ∧
      tslaQualified.premium = a.premium ∧ tslaQualified.volume = a.volume ∧
      tslaQualified.open_interest = a.open_interest) ∧
    mutateAlert now0 nvdaAlert = nvdaAlert :=
  ⟨(filter_alerts_frame now0 fallbackData).1 tslaQualified (by decide),
    (filter_alerts_frame now0 fallbackData).2 nvdaAlert (by decide)⟩

/-- Claim C7: in simulated mode, for a qualifying alert (average price at
least the minimum) and draws u1 in the 0.95 to 1.05 range and u2 in the
-0.1 to 0.2 range, the entry price equals average_price times u1 and so
lies between 0.95 and 1.05 times the average price, and the PnL equals the
rounding of u2 times the entry price, hence lies between -0.1 and 0.2
times the entry price up to a rounding error of at most 1/200. -/
theorem simulate_trade_bounds (avg u1 u2 : ℚ)
    (havg : MIN_AVERAGE_PRICE ≤ avg)
    (h1l : 0.95 ≤ u1) (h1u : u1 ≤ 1.05) (h2l : -0.1 ≤ u2) (h2u : u2 ≤ 0.2) :
    (simulate_trade_execution avg u1 u2).1 = avg * u1 ∧
    0.95 * avg ≤ (simulate_trade_execution avg u1 u2).1 ∧
    (simulate_trade_execution avg u1 u2).1 ≤ 1.05 * avg ∧
    (simulate_trade_execution avg u1 u2).2 =
      round2 (u2 * (simulate_trade_execution avg u1 u2).1) ∧
    |(simulate_trade_execution avg u1 u2).2 -
      u2 * (simulate_trade_execution avg u1 u2).1| ≤ 1/200 ∧
    -0.1 * (simulate_trade_execution avg u1 u2).1 - 1/200 ≤
      (simulate_trade_execution avg u1 u2).2 ∧
    (simulate_trade_execution avg u1 u2).2 ≤
      0.2 * (simulate_trade_execution avg u1 u2).1 + 1/200 := by
  have havg0 : (0 : ℚ) ≤ avg := by
    have : (5 : ℚ) ≤ avg := by rwa [MIN_AVERAGE_PRICE] at havg
    linarith
  have hentry : (simulate_trade_execution avg u1 u2).1 = avg * u1 := rfl
  have hpnl : (simulate_trade_execution avg u1 u2).2 = round2 (u2 * (avg * u1)) := rfl
  have hentry0 : (0 : ℚ) ≤ avg * u1 := by nlinarith
  have hr := round2_near (u2 * (avg * u1))
  rw [abs_le] at hr
  refine ⟨rfl, ?_, ?_, rfl, ?_, ?_, ?_⟩
  · rw [hentry]; nlinarith
  · rw [hentry]; nlinarith
  · rw [hpnl, hentry, abs_le]; exact hr
  · rw [hpnl, hentry]; nlinarith
  · rw [hpnl, hentry]; nlinarith

unseal Rat.mul Rat.inv Rat.ofScientific Rat.add Rat.sub in
/-- Claim C7 witness: concrete draws u1 = 1 and u2 = 0 on an average price
of 10. -/
theorem simulate_trade_bounds_witness :
    MIN_AVERAGE_PRICE ≤ (10 : ℚ) ∧
    ((simulate_trade_execution 10 1 0).1 = 10 * 1 ∧
     0.95 * 10 ≤ (simulate_trade_execution 10 1 0).1 ∧
     (simulate_trade_execution 10 1 0).1 ≤ 1.05 * 10 ∧
     (simulate_trade_execution 10 1 0).2 =
       round2 (0 * (simulate_trade_execution 10 1 0).1) ∧
     |(simulate_trade_execution 10 1 0).2 -
       0 * (simulate_trade_execution 10 1 0).1| ≤ 1/200 ∧
     -0.1 * (simulate_trade_execution 10 1 0).1 - 1/200 ≤
       (simulate_trade_execution 10 1 0).2 ∧
     (simulate_trade_execution 10 1 0).2 ≤
       0.2 * (simulate_trade_execution 10 1 0).1 + 1/200) :=
  ⟨by decide, simulate_trade_bounds 10 1 0 (by decide) (by decide) (by decide)
    (by decide) (by decide)⟩

unseal Rat.mul Rat.inv Rat.ofScientific Rat.add Rat.sub in
/-- Claim C5 counterexample: at the concrete scan time 2025-09-01 all
three fallback expirations are at least 30 days out, yet no element of the
filter output is the NVDA record: its average price 4.80 fails the
minimum-average-price rule, so the batch does not produce the three-way
outcome the claim asserts. -/
theorem fallback_scenario_cex :
    (30 ≤ Rat.floor ((daysFromCivil 2025 12 20 : ℚ) - now0) ∧
     30 ≤ Rat.floor ((daysFromCivil 2025 11 15 : ℚ) - now0) ∧
     30 ≤ Rat.floor ((daysFromCivil 2025 10 25 : ℚ) - now0)) ∧
    ∀ b ∈ filter_alerts now0 fallbackData, b.ticker ≠ "NVDA" := by decide

unseal Rat.mul Rat.inv Rat.ofScientific Rat.add Rat.sub in
theorem processAlert_tsla (now : ℚ)
    (h1 : 30 ≤ Rat.floor ((daysFromCivil 2025 12 20 : ℚ) - now)) :
    processAlert now tslaAlert =
      some { tslaAlert with
        days_to_expiry := some (Rat.floor ((daysFromCivil 2025 12 20 : ℚ) - now)),
        volume_ratio := some (5/2) } := by
  unfold processAlert
  rw [show parseAlert now tslaAlert = some
      { dte := Rat.floor ((daysFromCivil 2025 12 20 : ℚ) - now),
        avg_price := 5.12, premium := 210000, volume := 500,
        open_interest := 200, vol_ratio := 5/2 } from by
    rw [show parseAlert now tslaAlert = some
        { dte := Rat.floor ((daysFromCivil 2025 12 20 : ℚ) - now),
          avg_price := 5.12, premium := 210000, volume := 500,
          open_interest := 200,
          vol_ratio := if 0 < (200 : ℚ) then (500 : ℚ) / 200 else 0 } from rfl]
    norm_num]
  dsimp only
  rw [if_pos ⟨by rw [MIN_DAYS_TO_EXPIRY]; exact h1,
    by rw [MIN_AVERAGE_PRICE]; norm_num,
    by rw [MIN_PREMIUM]; norm_num,
    by rw [VOLUME_MULTIPLIER]; norm_num⟩]
  rw [show round2 (5/2) = 5/2 from by decide]

theorem processAlert_nvda (now : ℚ) : processAlert now nvdaAlert = none := by
  unfold processAlert
  rw [show parseAlert now nvdaAlert = some
      { dte := Rat.floor ((daysFromCivil 2025 11 15 : ℚ) - now),
        avg_price := 4.8, premium := 150000, volume := 300,
        open_interest := 150,
        vol_ratio := if 0 < (150 : ℚ) then (300 : ℚ) / 150 else 0 } from rfl]
  dsimp only
  exact if_neg fun hc => absurd hc.2.1 (by rw [MIN_AVERAGE_PRICE]; norm_num)

theorem processAlert_aapl (now : ℚ) : processAlert now aaplAlert = none := by
  unfold processAlert
  rw [show parseAlert now aaplAlert = some
      { dte := Rat.floor ((daysFromCivil 2025 10 25 : ℚ) - now),
        avg_price := 2.1, premium := 50000, volume := 100,
        open_interest := 200,
        vol_ratio := if 0 < (200 : ℚ) then (100 : ℚ) / 200 else 0 } from rfl]
  dsimp only
  exact if_neg fun hc => absurd hc.2.1 (by rw [MIN_AVERAGE_PRICE]; norm_num)

/-- Claim C5 amended: on the fallback dataset, at any scan time making all
three expirations at least 30 days out, TSLA qualifies and is annotated
with volume ratio 2.5, while NVDA is rejected (its average price 4.80 is
below the minimum 5) and AAPL is rejected; the output is exactly the
annotated TSLA record. -/
theorem fallback_scenario_amended (now : ℚ)
    (h1 : 30 ≤ Rat.floor ((daysFromCivil 2025 12 20 : ℚ) - now))
    (h2 : 30 ≤ Rat.floor ((daysFromCivil 2025 11 15 : ℚ) - now))
    (h3 : 30 ≤ Rat.floor ((daysFromCivil 2025 10 25 : ℚ) - now)) :
    filter_alerts now fallbackData =
      [{ tslaAlert with
          days_to_expiry := some (Rat.floor ((daysFromCivil 2025 12 20 : ℚ) - now)),
          volume_ratio := some (5/2) }] ∧
    processAlert now nvdaAlert = none ∧
    processAlert now aaplAlert = none := by
  refine ⟨?_, processAlert_nvda now, processAlert_aapl now⟩
  unfold filter_alerts fallbackData
  rw [List.filterMap_cons_some (processAlert_tsla now h1),
    List.filterMap_cons_none (processAlert_nvda now),
    List.filterMap_cons_none (processAlert_aapl now),
    List.filterMap_nil]

unseal Rat.mul Rat.inv Rat.ofScientific Rat.add Rat.sub in
/-- Claim C5 amended witness: the concrete scan time 2025-09-01 puts all
three expirations at least 30 days out. -/
theorem fallback_scenario_amended_witness :
    (30 ≤ Rat.floor ((daysFromCivil 2025 12 20 : ℚ) - now0) ∧
     30 ≤ Rat.floor ((daysFromCivil 2025 11 15 : ℚ) - now0) ∧
     30 ≤ Rat.floor ((daysFromCivil 2025 10 25 : ℚ) - now0)) ∧
    filter_alerts now0 fallbackData =
      [{ tslaAlert with
          days_to_expiry := some (Rat.floor ((daysFromCivil 2025 12 20 : ℚ) - now0)),
          volume_ratio := some (5/2) }] ∧
    processAlert now0 nvdaAlert = none ∧
    processAlert now0 aaplAlert = none :=
  ⟨⟨by decide, by decide, by decide⟩,
    fallback_scenario_amended now0 (by decide) (by decide) (by decide)⟩
